import Mathlib

/-!
Verification of the EAVS data-pipeline scripts: a shallow embedding of the
config-driven SQL union-view generation and incremental view-patching logic
(`scripts/generate_dynamic_unions.py`, `scripts/load_eavs_year.py`,
`scripts/load_denominators_2024.py`), together with the validation helpers
(`scripts/postload_validation.py`, `scripts/validate_mappings.py`).

Python strings are modelled as `List Char`; Python `dict`s as association
lists looked up with `List.lookup`; YAML scalars that may be either a string
or an integer as the sum type `YearKey`; Python exceptions as `Except`;
Python regular-expression searches as explicit character scans that implement
the exact leftmost-match semantics of the concrete patterns appearing in the
source (documented at each definition).
-/

set_option maxRecDepth 4000

abbrev L : Type := List Char

def chars (s : String) : L := s.data

/-- Python `\s` (ASCII range): space, tab, newline, carriage return,
vertical tab, form feed. -/
def isPySpace (c : Char) : Bool :=
  c = ' ' || c = '\t' || c = '\n' || c = '\r' || c = '\x0b' || c = '\x0c'

/-- Python `\w` (ASCII range): letters, digits, underscore. -/
def isWordChar (c : Char) : Bool :=
  c.isAlphanum || c = '_'

/-- Python `str.lower` (ASCII). -/
def pyLower (s : L) : L := s.map Char.toLower

/-- Python `str.upper` (ASCII). -/
def pyUpper (s : L) : L := s.map Char.toUpper

/-- Python substring test `p in s` (contiguous substring). -/
def pyIn (p : L) : L → Bool
  | [] => p.isEmpty
  | c :: rest => p.isPrefixOf (c :: rest) || pyIn p rest

/-- Python slice insertion `s[:p] + t + s[p:]`. -/
def insertAt (p : Nat) (t s : L) : L := s.take p ++ t ++ s.drop p

/-- Python `year[-2:]` for a string of length at least two. -/
def lastTwo (s : L) : L := s.drop (s.length - 2)

/-- Python `int(s)` for a plain decimal digit string such as `"2024"`. -/
def strToInt (s : L) : Int :=
  s.foldl (fun a c => a * 10 + (Int.ofNat c.toNat - 48)) 0

/-- Python `str(n)` for an integer (used on YAML integer year keys). -/
def intToStr (i : Int) : L :=
  if i < 0 then '-' :: Nat.toDigits 10 (-i).toNat else Nat.toDigits 10 i.toNat

/-- Lexicographic string comparison, as used by Python `sorted` on `str`. -/
def lexLe : L → L → Bool
  | [], _ => true
  | _ :: _, [] => false
  | a :: xs, b :: ys => if a = b then lexLe xs ys else decide (a < b)

def insertLe (x : L) : List L → List L
  | [] => [x]
  | y :: ys => if lexLe x y then x :: y :: ys else y :: insertLe x ys

/-- Python `sorted` on a list of strings (insertion sort; total order). -/
def pySorted : List L → List L
  | [] => []
  | x :: xs => insertLe x (pySorted xs)

/-- `sorted(years)[-1]`: the last element of the sorted list
(`[]` when the list is empty; callers only use it on nonempty lists). -/
def lastOfSorted (l : List L) : L := (pySorted l).getLast?.getD []

/-- Case-insensitive prefix test (Python `re.IGNORECASE`, ASCII). -/
def ciPrefixOf (p s : L) : Bool := pyLower (s.take p.length) == pyLower p

/-! ## The Mapping Store (`config/field_mappings.yaml`)

A section's YAML mapping block has one `standard_fields` key holding an
ordered list of field names, plus one key per year.  YAML parses a bare
4-digit year key as an integer, while a quoted one stays a string, so a year
key is either form (`YearKey`).  A year's block maps a standard field name to
a source expression, to the string `'null'`, or to an explicit YAML `null`
(Python `None`), modelled as `Option L`. -/

inductive YearKey : Type
  | ystr (s : L)
  | yint (i : Int)
deriving DecidableEq, BEq

/-- `str(year)` applied to a YAML key, as in the year-listing comprehensions. -/
def yearKeyStr : YearKey → L
  | .ystr s => s
  | .yint i => intToStr i

abbrev YearFields : Type := List (L × Option L)

structure SectionMappings : Type where
  standard_fields : List L
  years : List (YearKey × YearFields)

/-! ## `scripts/generate_dynamic_unions.py` (class `DynamicUnionGenerator`) -/

/-- `get_all_years` (lines 22-26): `sorted(str(year) for year in mappings.keys()
if year != 'standard_fields')`. -/
def get_all_years (m : SectionMappings) : List L :=
  pySorted (m.years.map (fun p => yearKeyStr p.1))

/-- `get_standard_fields` (lines 28-31). -/
def get_standard_fields (m : SectionMappings) : List L :=
  m.standard_fields

/-- `get_dataset_name` (lines 33-35): `f"eavs_{year}"`. -/
def get_dataset_name (year : L) : L := chars "eavs_" ++ year

/-- `section_code.upper().replace('_', '_')` (line 40): uppercase, then the
(identity) replacement of underscores by underscores. -/
def pyUpperRepl (s : L) : L :=
  (pyUpper s).map (fun c => if c = '_' then '_' else c)

/-- `get_table_name` (lines 37-41):
`f"eavs_county_{year_suffix}_{section_suffix}"` with `year_suffix = year[-2:]`
and `section_suffix = section_code.upper().replace('_', '_')`. -/
def get_table_name (year section_code : L) : L :=
  chars "eavs_county_" ++ lastTwo year ++ chars "_" ++ pyUpperRepl section_code

/-- Line 46: `year_mappings = mappings.get(int(year), mappings.get(year, {}))`
— the integer key is consulted first, then the string key. -/
def yearFieldsDyn (m : SectionMappings) (year : L) : YearFields :=
  match List.lookup (YearKey.yint (strToInt year)) m.years with
  | some f => f
  | none =>
    match List.lookup (YearKey.ystr year) m.years with
    | some f => f
    | none => []

/-- Line 53: the base fields always emitted first. -/
def baseFieldsL : List L :=
  [chars "fips", chars "election_year", chars "state", chars "county",
   chars "state_abbr", chars "county_name"]

def aliasSep : L := chars " as "

/-- `f"'{year}' as election_year"` (line 58). -/
def yearLit (year : L) : L :=
  (chars "'" ++ year ++ chars "'") ++ (aliasSep ++ chars "election_year")

/-- Lines 56-63: the fixed leading projection. -/
def baseSelects (year : L) : List L :=
  [chars "fips", yearLit year, chars "state", chars "county",
   chars "state_abbr", chars "county_name"]

/-- Lines 71-76: one mapped field of `generate_union_select`.  A stored
Python `None` and an absent key both reach the `NULL` branch (`.get` returns
`None` either way), as does the string sentinel `'null'`. -/
def dynFieldSelect (ym : YearFields) (f : L) : L :=
  match (List.lookup f ym).getD none with
  | none => chars "NULL" ++ (aliasSep ++ f)
  | some v => if v = chars "null" then chars "NULL" ++ (aliasSep ++ f)
              else v ++ (aliasSep ++ f)

/-- Lines 66-78: the loop over `standard_fields`, skipping base fields. -/
def mappedSelects (ym : YearFields) : List L → List L
  | [] => []
  | f :: fs =>
    if baseFieldsL.contains f then mappedSelects ym fs
    else dynFieldSelect ym f :: mappedSelects ym fs

/-- The full `selects` list built by `generate_union_select` (lines 56-78). -/
def selectsFor (m : SectionMappings) (year : L) : List L :=
  baseSelects year ++ mappedSelects (yearFieldsDyn m year) m.standard_fields

/-- `generate_union_select` (lines 43-87): the returned SELECT block. -/
def generate_union_select (project_id : L) (m : SectionMappings)
    (year section_code : L) : L :=
  chars "-- " ++ year ++ chars " Data\nSELECT \n  " ++
    List.intercalate (chars ",\n  ") (selectsFor m year) ++
    (chars "\nFROM `" ++ project_id ++ chars "." ++ get_dataset_name year ++
     chars "." ++ get_table_name year section_code ++ chars "`")

/-- The `union_blocks` accumulation loop of `generate_full_union_view`
(lines 97-104): a failing year is skipped, the rest are kept in order.
Exception-raising block generation is modelled by an `Except`-valued
generator argument. -/
def gfuvBlocks (gen : L → Except L L) : List L → List L
  | [] => []
  | y :: ys =>
    match gen y with
    | .ok b => b :: gfuvBlocks gen ys
    | .error _ => gfuvBlocks gen ys

/-- Lines 113-119: the `CREATE OR REPLACE VIEW` wrapper around the union SQL. -/
def viewWrap (project_id analytics_dataset view_name union_sql : L) : L :=
  chars "-- EAVS " ++ view_name ++
    chars " Union View\n-- Automatically generated from config - all years included dynamically\n-- DO NOT EDIT - regenerate using scripts/generate_dynamic_unions.py\n\nCREATE OR REPLACE VIEW `" ++
    project_id ++ chars "." ++ analytics_dataset ++ chars "." ++ view_name ++
    chars "` AS\n\n" ++ union_sql

/-- `generate_full_union_view` (lines 89-121).  `raise ValueError` is
modelled as `Except.error`. -/
def generate_full_union_view (gen : L → Except L L) (m : SectionMappings)
    (mapping_key project_id analytics_dataset view_name : L) : Except L L :=
  let years := get_all_years m
  if years.isEmpty then
    .error (chars "No years found for " ++ mapping_key)
  else
    let union_blocks := gfuvBlocks gen years
    if union_blocks.isEmpty then
      .error (chars "Could not generate any union blocks for " ++ mapping_key)
    else
      .ok (viewWrap project_id analytics_dataset view_name
            (List.intercalate (chars "\n\nUNION ALL\n\n") union_blocks))

/-! ## `scripts/load_eavs_year.py` (class `EAVSLoader`) -/

/-- `create_external_tables` (line 124):
`f"eavs_county_{self.year_short}_{section}"` with `year_short = year[-2:]`. -/
def loaderTableName (year sec : L) : L :=
  chars "eavs_county_" ++ lastTwo year ++ chars "_" ++ sec

/-- The already-present marker `f"{section}_{self.year}"` (line 165). -/
def markerReg (sec year : L) : L := sec ++ chars "_" ++ year

/-- Line 202: `mappings.get(self.year, mappings.get(int(self.year), {}))`
— the string key is consulted first, then the integer key. -/
def yearFieldsEavs (m : SectionMappings) (year : L) : YearFields :=
  match List.lookup (YearKey.ystr year) m.years with
  | some f => f
  | none =>
    match List.lookup (YearKey.yint (strToInt year)) m.years with
    | some f => f
    | none => []

def cteSep : L := chars " AS "

/-- Lines 214-218: one field of `_generate_year_cte`'s SELECT.  The test is
`if source_field and source_field != 'null'`: a stored `None`, an absent key,
and an empty string are all falsy and reach the `NULL` branch. -/
def cteFieldSelect (ym : YearFields) (f : L) : L :=
  match (List.lookup f ym).getD none with
  | none => chars "NULL" ++ (cteSep ++ f)
  | some v => if v ≠ [] ∧ v ≠ chars "null" then v ++ (cteSep ++ f)
              else chars "NULL" ++ (cteSep ++ f)

/-- Lines 209-218: the `selections` list, starting with the year literal and
skipping the `election_year` standard field. -/
def cteSelections (ym : YearFields) (year : L) : List L → List L
  | [] => []
  | f :: fs =>
    if f = chars "election_year" then cteSelections ym year fs
    else cteFieldSelect ym f :: cteSelections ym year fs

/-- The CTE text of lines 226-231 (exact f-string layout). -/
def cteText (m : SectionMappings) (sec year : L) : L :=
  chars "  " ++ (markerReg sec year ++
    (chars " AS (\n  SELECT\n    " ++
     List.intercalate (chars ",\n    ")
       ((chars "'" ++ year ++ chars "'" ++ (cteSep ++ chars "election_year")) ::
        cteSelections (yearFieldsEavs m year) year m.standard_fields) ++
     chars "\n  FROM\n    `eavs_" ++ year ++ chars "." ++
     loaderTableName year sec ++ chars "`\n  )"))

/-- `_generate_year_cte` (lines 187-232): `None` when the year has no field
mappings (empty dict is falsy). -/
def genYearCte (m : SectionMappings) (sec year : L) : Option L :=
  if yearFieldsEavs m year = [] then none
  else some (cteText m sec year)

/-- Non-overlapping scan of `re.findall(section + r"_(\d{4}) AS \(",
existing_sql)` (lines 241-242): literal `section ++ "_"`, four digits,
literal `" AS ("`; on a hit the scan resumes after the matched text. -/
def findYearsAux (lit : L) : Nat → L → List L
  | 0, _ => []
  | _ + 1, [] => []
  | fuel + 1, c :: rest =>
    if lit.isPrefixOf (c :: rest) then
      match (c :: rest).drop lit.length with
      | d1 :: d2 :: d3 :: d4 :: t2 =>
        if d1.isDigit && d2.isDigit && d3.isDigit && d4.isDigit &&
           (chars " AS (").isPrefixOf t2 then
          [d1, d2, d3, d4] :: findYearsAux lit fuel (t2.drop 5)
        else findYearsAux lit fuel rest
      | _ => findYearsAux lit fuel rest
    else findYearsAux lit fuel rest

def findYears (lit s : L) : List L := findYearsAux lit (s.length + 1) s

/-- Leftmost match of the insert pattern
`f"({section}_{last_year} AS \([^)]+\))"` with `re.DOTALL` (lines 247-248),
returning `match.end()`: after the literal there must be at least one
non-`)` character before the first `)`; the greedy `[^)]+` stops exactly at
that first `)`. -/
def searchCteEndAux (lit : L) : Nat → L → Nat → Option Nat
  | 0, _, _ => none
  | _ + 1, [], _ => none
  | fuel + 1, c :: rest, pos =>
    if lit.isPrefixOf (c :: rest) then
      match ((c :: rest).drop lit.length).findIdx? (· = ')') with
      | some k =>
        if k ≥ 1 then some (pos + lit.length + k + 1)
        else searchCteEndAux lit fuel rest (pos + 1)
      | none => searchCteEndAux lit fuel rest (pos + 1)
    else searchCteEndAux lit fuel rest (pos + 1)

def searchCteEnd (lit s : L) : Option Nat := searchCteEndAux lit (s.length + 1) s 0

/-- Leftmost match of `r"(,\s*union_all as \()"` (lines 257-258), returning
`match.start()`: a comma, a maximal whitespace run, then the literal
(whose first character is not whitespace, so the run is forced). -/
def searchUnionAllStartAux : Nat → L → Nat → Option Nat
  | 0, _, _ => none
  | _ + 1, [], _ => none
  | fuel + 1, c :: rest, pos =>
    if c = ',' ∧ (chars "union_all as (").isPrefixOf (rest.dropWhile isPySpace)
    then some pos
    else searchUnionAllStartAux fuel rest (pos + 1)

def searchUnionAllStart (s : L) : Option Nat := searchUnionAllStartAux (s.length + 1) s 0

/-- The `\w+_\d{4}\s*\)` tail of the union pattern, tried at word-run
position `u` (the greedy `\w+` takes the largest workable `u`): the `u`-th
character must be `_`, followed by four digits, optional whitespace and `)`.
Returns the consumed length. -/
def armTailCheck (t2 : L) (u : Nat) : Option Nat :=
  match t2.drop u with
  | '_' :: d1 :: d2 :: d3 :: d4 :: rest3 =>
    if d1.isDigit && d2.isDigit && d3.isDigit && d4.isDigit then
      let sp := (rest3.takeWhile isPySpace).length
      match rest3.drop sp with
      | ')' :: _ => some (u + 5 + sp + 1)
      | _ => none
    else none
  | _ => none

/-- Try `u, u-1, ..., 1` (greedy `\w+` prefers the longest). -/
def armBestU : Nat → L → Option Nat
  | 0, _ => none
  | u + 1, t2 =>
    match armTailCheck t2 (u + 1) with
    | some l => some l
    | none => armBestU u t2

/-- A match of `r"(FROM\s+\w+_\d{4})\s*\)"` (line 267) anchored at the head
of `s`; returns the full match length. -/
def matchArmLen (s : L) : Option Nat :=
  if (chars "FROM").isPrefixOf s then
    let t := s.drop 4
    let wlen := (t.takeWhile isPySpace).length
    if wlen = 0 then none
    else
      let t2 := t.drop wlen
      (armBestU (t2.takeWhile isWordChar).length t2).map (fun l => 4 + wlen + l)
  else none

/-- `list(re.finditer(...))[-1].end()` (lines 268-271): non-overlapping
left-to-right scan, keeping the end of the last match. -/
def armScanAux : Nat → L → Nat → Option Nat
  | 0, _, _ => none
  | _ + 1, [], _ => none
  | fuel + 1, c :: rest, pos =>
    match matchArmLen (c :: rest) with
    | some len =>
      match armScanAux fuel ((c :: rest).drop len) (pos + len) with
      | some e => some e
      | none => some (pos + len)
    | none => armScanAux fuel rest (pos + 1)

def armInsertPos (s : L) : Option Nat := armScanAux (s.length + 1) s 0

/-- Step one of `_insert_cte_into_view` (lines 240-261): the position at
which `",\n" + new_cte` is inserted — after the closing parenthesis of the
latest existing year CTE for this section, or, if the section has no year
CTEs yet, before the `union_all` CTE; `none` when the pattern search fails
(no insertion happens). -/
def cteInsertPos (sec s : L) : Option Nat :=
  let years := findYears (sec ++ chars "_") s
  if years.isEmpty then searchUnionAllStart s
  else searchCteEnd (sec ++ chars "_" ++ lastOfSorted years ++ chars " AS (") s

/-- Line 264: `f"\nUNION ALL\nSELECT * FROM {section}_{self.year}"`. -/
def unionAddition (sec year : L) : L :=
  chars "\nUNION ALL\nSELECT * FROM " ++ markerReg sec year

/-- `_insert_cte_into_view` (lines 234-274): insert the CTE (when its
pattern matches), then insert the union arm into the updated text (when its
pattern matches). -/
def insertCteIntoView (sec year cte s : L) : L :=
  let s1 :=
    match cteInsertPos sec s with
    | some p => insertAt p (chars ",\n" ++ cte) s
    | none => s
  match armInsertPos s1 with
  | some p => insertAt p (unionAddition sec year) s1
  | none => s1

/-- The per-view body of `update_union_views` (lines 158-181) as a pure text
transformation: keep the view unchanged when the year marker is already
present (line 165) or no CTE can be generated (lines 170-173), otherwise
splice the new CTE in. -/
def patchReg (m : SectionMappings) (sec year s : L) : L :=
  if pyIn (markerReg sec year) s then s
  else
    match genYearCte m sec year with
    | none => s
    | some cte => insertCteIntoView sec year cte s

/-! ## `scripts/load_denominators_2024.py` -/

/-- The 2024 CVAP CTE literal of lines 107-119. -/
def acsCteText : L :=
  chars "  acs_2024 AS (\n  SELECT\n    '2024' AS election_year,\n    GEOID,\n    lntitle AS LNTITLE,\n    TRIM(SPLIT(geoname, ',')[SAFE_OFFSET(1)]) AS state,\n    geoname AS county_name,\n    tot_est AS acs_total_population,\n    adu_est AS acs_adult_population,\n    cit_est AS acs_citizen_population,\n    cvap_est AS acs_cvap_population\n  FROM\n    `eavs-392800.acs.acs_2019-2023_county_cvap` )"

/-- The union-arm literal of line 141. -/
def acsUnionStmt : L :=
  chars "\n    UNION ALL\n    SELECT\n      *\n    FROM\n      acs_2024"

/-- The CTE-body terminator of the pattern
`r"(acs_2021 AS \((?:[^)]|\)(?!\s*,))*\)\s*,)"` (line 125): the first `)`
that is followed by optional whitespace and a comma; the negative lookahead
lets the starred body consume every earlier `)`.  Returns the offset just
after the comma. -/
def acsTermScan : Nat → L → Nat → Option Nat
  | 0, _, _ => none
  | _ + 1, [], _ => none
  | fuel + 1, c :: rest, off =>
    if c = ')' then
      let sp := (rest.takeWhile isPySpace).length
      match rest.drop sp with
      | ',' :: _ => some (off + 1 + sp + 1)
      | _ => acsTermScan fuel rest (off + 1)
    else acsTermScan fuel rest (off + 1)

/-- Leftmost match of the `acs_2021` CTE pattern (lines 125-126), returning
`match.end()` (just after the trailing comma). -/
def searchAcsCteEndAux : Nat → L → Nat → Option Nat
  | 0, _, _ => none
  | _ + 1, [], _ => none
  | fuel + 1, c :: rest, pos =>
    if (chars "acs_2021 AS (").isPrefixOf (c :: rest) then
      match acsTermScan ((c :: rest).length + 1) ((c :: rest).drop 13) 0 with
      | some e => some (pos + 13 + e)
      | none => searchAcsCteEndAux fuel rest (pos + 1)
    else searchAcsCteEndAux fuel rest (pos + 1)

def searchAcsCteEnd (s : L) : Option Nat := searchAcsCteEndAux (s.length + 1) s 0

/-- A match of `r"(SELECT\s+\*\s+FROM\s+acs_2021)"` with `re.IGNORECASE`
(line 135) anchored at the head of `s`; each `\s+` run is maximal because
the following literal starts with a non-space character.  Returns the match
length. -/
def matchSelLen (s : L) : Option Nat :=
  if ciPrefixOf (chars "select") s then
    let t1 := s.drop 6
    let a := (t1.takeWhile isPySpace).length
    if a = 0 then none
    else
      match t1.drop a with
      | '*' :: t2 =>
        let b := (t2.takeWhile isPySpace).length
        if b = 0 then none
        else
          let t3 := t2.drop b
          if ciPrefixOf (chars "from") t3 then
            let t4 := t3.drop 4
            let c := (t4.takeWhile isPySpace).length
            if c = 0 then none
            else if ciPrefixOf (chars "acs_2021") (t4.drop c) then
              some (6 + a + 1 + b + 4 + c + 8)
            else none
          else none
      | _ => none
  else none

/-- Leftmost match of the union-arm pattern (lines 135-136), returning
`match.end()`. -/
def searchSelEndAux : Nat → L → Nat → Option Nat
  | 0, _, _ => none
  | _ + 1, [], _ => none
  | fuel + 1, c :: rest, pos =>
    match matchSelLen (c :: rest) with
    | some len => some (pos + len)
    | none => searchSelEndAux fuel rest (pos + 1)

def searchSelEnd (s : L) : Option Nat := searchSelEndAux (s.length + 1) s 0

/-- `update_acs_population_union_view` (lines 90-157) as a pure view-text
transformation.  The view is left unchanged when 2024 is already present
(lines 100-103), and also on either pattern failure (lines 148-153): the
partially patched text is only written to a `*_MANUAL.sql` /
`*_current.sql` side file, never pushed to the warehouse. -/
def acsPatch (s : L) : L :=
  if pyIn (chars "'2024'") s || pyIn (chars "acs_2024") s then s
  else
    match searchAcsCteEnd s with
    | none => s
    | some p1 =>
      let u := insertAt p1 (chars "\n" ++ acsCteText ++ chars ",") s
      match searchSelEnd u with
      | none => s
      | some p2 => insertAt p2 acsUnionStmt u

/-! ## `scripts/postload_validation.py` (class `ValidationResult`) -/

structure ValidationResult : Type where
  check_name : L
  passed : Bool
  warnings : List L
  errors : List L
  info : List L

/-- `__init__` (lines 49-54): `passed` starts `True`, the lists empty. -/
def ValidationResult.init (name : L) : ValidationResult :=
  ⟨name, true, [], [], []⟩

/-- `add_warning` (lines 56-57). -/
def add_warning (r : ValidationResult) (m : L) : ValidationResult :=
  { r with warnings := r.warnings ++ [m] }

/-- `add_error` (lines 59-61): records the message and sets `passed = False`. -/
def add_error (r : ValidationResult) (m : L) : ValidationResult :=
  { r with errors := r.errors ++ [m], passed := false }

/-- `add_info` (lines 63-64). -/
def add_info (r : ValidationResult) (m : L) : ValidationResult :=
  { r with info := r.info ++ [m] }

inductive VCall : Type
  | cinfo (m : L)
  | cwarn (m : L)
  | cerr (m : L)
deriving DecidableEq

def isErrCall : VCall → Bool
  | .cerr _ => true
  | _ => false

def applyCall (r : ValidationResult) : VCall → ValidationResult
  | .cinfo m => add_info r m
  | .cwarn m => add_warning r m
  | .cerr m => add_error r m

def applyCalls (r : ValidationResult) (cs : List VCall) : ValidationResult :=
  cs.foldl applyCall r

/-! ## `scripts/validate_mappings.py` (`find_similar_field`, lines 130-160) -/

/-- The `patterns` dict of lines 144-150, in insertion order. -/
def fsfPatterns : List (L × List L) :=
  [(chars "total", [chars "total", chars "tot"]),
   (chars "reject", [chars "reject", chars "denied", chars "invalid"]),
   (chars "count", [chars "count", chars "cnt", chars "total"]),
   (chars "mail", [chars "mail", chars "absentee", chars "post"]),
   (chars "uocava", [chars "uocava", chars "military", chars "overseas"])]

/-- `find_similar_field` (lines 130-160): exact case-insensitive match, then
mutual-containment match, then keyword patterns; `None` when nothing hits. -/
def find_similar_field (target : L) (available_fields : List L) : Option L :=
  let target_lower := pyLower target
  match available_fields.find? (fun f => pyLower f = target_lower) with
  | some f => some f
  | none =>
    match available_fields.find?
        (fun f => pyIn target_lower (pyLower f) || pyIn (pyLower f) target_lower) with
    | some f => some f
    | none =>
      fsfPatterns.findSome? (fun pa =>
        if pyIn pa.1 target_lower then
          pa.2.findSome? (fun alt =>
            available_fields.find? (fun f => pyIn alt (pyLower f)))
        else none)

/-! ## Alias extraction (formalising "output column alias" of a SELECT item)

In `expr as alias` the alias is the text after the last ` as ` separator; an
item with no separator (a bare column such as `fips`) is its own alias. -/

/-- Index of the last occurrence of `p` in `s` (`none` when absent). -/
def lastOcc (p : L) : L → Option Nat
  | [] => none
  | c :: t =>
    match lastOcc p t with
    | some j => some (j + 1)
    | none => if p.isPrefixOf (c :: t) then some 0 else none

/-- The output column alias of one generated SELECT item. -/
def aliasOf (item : L) : L :=
  match lastOcc aliasSep item with
  | some i => item.drop (i + aliasSep.length)
  | none => item

/-! ## Concrete instances used by counterexamples and witnesses -/

/-- A deliberately malformed "existing view": no CTE insertion point for
section `a_reg` and no `union_all` CTE, but a trailing `FROM <name>_<year> )`
that the union-arm pattern of `_insert_cte_into_view` does match. -/
def cexSql : L := chars "WITH x AS (SELECT * FROM t_2020 )"

/-- A new-year CTE for the counterexample. -/
def cexCte : L := chars "  a_reg_2024 AS (\n  SELECT\n    x\n  )"

/-- A mapping store holding the same year under both the string key and the
integer key, with different field maps. -/
def mBothKeys : SectionMappings :=
  ⟨[], [(YearKey.ystr (chars "2024"), [(chars "a", some (chars "S"))]),
        (YearKey.yint 2024, [(chars "a", some (chars "I"))])]⟩

/-- A mapping store with no years at all. -/
def mNoYears : SectionMappings := ⟨[], []⟩

/-- A one-year mapping store for patcher witnesses. -/
def mOneYear : SectionMappings :=
  ⟨[chars "a"], [(YearKey.ystr (chars "2024"), [(chars "a", some (chars "col_a"))])]⟩

/-! ## Helper lemmas -/

theorem pyIn_iff (p : L) : ∀ s : L, pyIn p s = true ↔ p <:+: s := by
  intro s
  induction s with
  | nil =>
    simp [pyIn, List.isEmpty_iff, List.infix_nil]
  | cons c t ih =>
    simp [pyIn, Bool.or_eq_true, List.isPrefixOf_iff_prefix, ih,
      List.infix_cons_iff]

theorem sublist_insertAt (p : Nat) (t s : L) : s.Sublist (insertAt p t s) := by
  unfold insertAt
  rw [List.append_assoc]
  conv_lhs => rw [← List.take_append_drop p s]
  exact List.Sublist.append (List.Sublist.refl _) (List.sublist_append_right t _)

theorem insertAt_nil (s : L) : insertAt 0 [] s = s := by
  simp [insertAt]

theorem infix_preserved_insertAt (pt : L) {t : L} (i : Nat) (s : L)
    (h : pt <:+: t) : pt <:+: insertAt i t s := by
  apply h.trans
  unfold insertAt
  rw [List.append_assoc]
  exact List.infix_append' _ _ _

theorem infix_append_left (a : L) {pt t : L} (h : pt <:+: t) : pt <:+: a ++ t :=
  h.trans ⟨a, [], by simp⟩

theorem marker_infix_cteText (m : SectionMappings) (sec year : L) :
    markerReg sec year <:+: cteText m sec year := by
  unfold cteText
  exact List.infix_append' _ _ _

theorem marker_infix_unionAddition (sec year : L) :
    markerReg sec year <:+: unionAddition sec year := by
  unfold unionAddition
  exact (List.suffix_append _ _).isInfix

theorem insertCte_unchanged_or_marker (sec year cte s : L)
    (hc : markerReg sec year <:+: cte) :
    insertCteIntoView sec year cte s = s ∨
      markerReg sec year <:+: insertCteIntoView sec year cte s := by
  unfold insertCteIntoView
  cases h1 : cteInsertPos sec s with
  | none =>
    simp only
    cases h2 : armInsertPos s with
    | none => exact Or.inl rfl
    | some q =>
      exact Or.inr (infix_preserved_insertAt _ _ _ (marker_infix_unionAddition sec year))
  | some p =>
    simp only
    cases h2 : armInsertPos (insertAt p (chars ",\n" ++ cte) s) with
    | none =>
      exact Or.inr (infix_preserved_insertAt _ _ _ (infix_append_left _ hc))
    | some q =>
      exact Or.inr (infix_preserved_insertAt _ _ _ (marker_infix_unionAddition sec year))

theorem genYearCte_eq_some (m : SectionMappings) (sec year cte : L)
    (h : genYearCte m sec year = some cte) : cte = cteText m sec year := by
  unfold genYearCte at h
  split at h
  · exact absurd h (by simp)
  · exact (Option.some.inj h).symm

theorem patchReg_marker_unchanged (m : SectionMappings) (sec year e : L)
    (h : pyIn (markerReg sec year) e = true) : patchReg m sec year e = e := by
  simp [patchReg, h]

theorem patchReg_idem (m : SectionMappings) (sec year e : L) :
    patchReg m sec year (patchReg m sec year e) = patchReg m sec year e := by
  by_cases hm : pyIn (markerReg sec year) e = true
  · have he : patchReg m sec year e = e := patchReg_marker_unchanged m sec year e hm
    rw [he, he]
  · have hm' : pyIn (markerReg sec year) e = false := by
      cases h : pyIn (markerReg sec year) e
      · rfl
      · exact absurd h hm
    cases hg : genYearCte m sec year with
    | none =>
      have he : patchReg m sec year e = e := by
        simp [patchReg, hm', hg]
      rw [he, he]
    | some cte =>
      have hr : patchReg m sec year e = insertCteIntoView sec year cte e := by
        simp [patchReg, hm', hg]
      have hmc : markerReg sec year <:+: cte := by
        rw [genYearCte_eq_some m sec year cte hg]
        exact marker_infix_cteText m sec year
      rcases insertCte_unchanged_or_marker sec year cte e hmc with hE | hI
      · have he : patchReg m sec year e = e := hr.trans hE
        rw [he, he]
      · rw [← hr] at hI
        exact patchReg_marker_unchanged m sec year _ ((pyIn_iff _ _).mpr hI)

theorem acs2024_infix_unionStmt : pyIn (chars "acs_2024") acsUnionStmt = true := by
  decide

theorem acsPatch_marker_unchanged (e : L)
    (h : pyIn (chars "'2024'") e = true ∨ pyIn (chars "acs_2024") e = true) :
    acsPatch e = e := by
  unfold acsPatch
  rcases h with h | h <;> simp [h]

theorem acsPatch_unchanged_or_marker (e : L) :
    acsPatch e = e ∨ pyIn (chars "acs_2024") (acsPatch e) = true := by
  unfold acsPatch
  cases hm : (pyIn (chars "'2024'") e || pyIn (chars "acs_2024") e) with
  | true => simp [hm]
  | false =>
    simp only [hm, Bool.false_eq_true, if_false]
    cases h1 : searchAcsCteEnd e with
    | none => exact Or.inl rfl
    | some p1 =>
      simp only
      cases h2 : searchSelEnd (insertAt p1 (chars "\n" ++ acsCteText ++ chars ",") e) with
      | none => exact Or.inl rfl
      | some p2 =>
        refine Or.inr ((pyIn_iff _ _).mpr ?_)
        exact infix_preserved_insertAt _ _ _ ((pyIn_iff _ _).mp acs2024_infix_unionStmt)

theorem acsPatch_idem (e : L) : acsPatch (acsPatch e) = acsPatch e := by
  rcases acsPatch_unchanged_or_marker e with hE | hI
  · rw [hE, hE]
  · exact acsPatch_marker_unchanged _ (Or.inr hI)

theorem lastOcc_append_of_some (p : L) {r : L} {j : Nat}
    (h : lastOcc p r = some j) :
    ∀ v : L, lastOcc p (v ++ r) = some (v.length + j) := by
  intro v
  induction v with
  | nil => simpa using h
  | cons c v ih =>
    show lastOcc p (c :: (v ++ r)) = _
    unfold lastOcc
    rw [ih]
    simp only [List.length_cons]
    congr 1
    omega

theorem lastOcc_isSome_of_prefix (p : L) (hp : p ≠ []) :
    ∀ s : L, p.isPrefixOf s = true → (lastOcc p s).isSome := by
  intro s h
  cases s with
  | nil =>
    rw [List.isPrefixOf_iff_prefix, List.prefix_nil] at h
    exact absurd h hp
  | cons c t =>
    unfold lastOcc
    cases hl : lastOcc p t with
    | some j => simp
    | none => simp [h]

theorem drop_append_shift (w : L) (m : Nat) :
    ∀ v : L, (v ++ w).drop (v.length + m) = w.drop m := by
  intro v
  induction v with
  | nil => simp
  | cons c v ih =>
    show ((c :: v) ++ w).drop (v.length + 1 + m) = w.drop m
    rw [show v.length + 1 + m = (v.length + m) + 1 by omega]
    simp only [List.cons_append, List.drop_succ_cons]
    exact ih

theorem aliasOf_shift (v f : L) :
    aliasOf (v ++ (aliasSep ++ f)) = aliasOf (aliasSep ++ f) := by
  have hpre : aliasSep.isPrefixOf (aliasSep ++ f) = true := by
    rw [List.isPrefixOf_iff_prefix]
    exact List.prefix_append _ _
  have hsome := lastOcc_isSome_of_prefix aliasSep (by decide) (aliasSep ++ f) hpre
  obtain ⟨j, hj⟩ := Option.isSome_iff_exists.mp hsome
  unfold aliasOf
  rw [hj, lastOcc_append_of_some aliasSep hj v]
  show (v ++ (aliasSep ++ f)).drop (v.length + j + aliasSep.length) =
    (aliasSep ++ f).drop (j + aliasSep.length)
  rw [show v.length + j + aliasSep.length = v.length + (j + aliasSep.length) by omega]
  rw [drop_append_shift]

theorem aliasOf_dynFieldSelect (ym : YearFields) (f : L) :
    aliasOf (dynFieldSelect ym f) = aliasOf (aliasSep ++ f) := by
  unfold dynFieldSelect
  cases (List.lookup f ym).getD none with
  | none => exact aliasOf_shift _ f
  | some v =>
    by_cases h : v = chars "null" <;> simp [h] <;> exact aliasOf_shift _ f

theorem mappedSelects_map_aliasOf (ym1 ym2 : YearFields) :
    ∀ fs : List L,
      (mappedSelects ym1 fs).map aliasOf = (mappedSelects ym2 fs).map aliasOf := by
  intro fs
  induction fs with
  | nil => rfl
  | cons f fs ih =>
    unfold mappedSelects
    by_cases h : baseFieldsL.contains f = true
    · simp only [h, if_true]
      exact ih
    · have h' : baseFieldsL.contains f = false := by
        cases hc : baseFieldsL.contains f
        · rfl
        · exact absurd hc h
      simp only [h', Bool.false_eq_true, if_false, List.map_cons]
      rw [aliasOf_dynFieldSelect ym1 f, aliasOf_dynFieldSelect ym2 f, ih]

theorem gfuvBlocks_eq_filterMap (gen : L → Except L L) :
    ∀ ys : List L, gfuvBlocks gen ys = ys.filterMap (fun y => (gen y).toOption) := by
  intro ys
  induction ys with
  | nil => rfl
  | cons y ys ih =>
    unfold gfuvBlocks
    cases h : gen y with
    | ok b => simp [List.filterMap_cons, h, Except.toOption, ih]
    | error e => simp [List.filterMap_cons, h, Except.toOption, ih]

theorem except_toOption_none_iff (e : Except L L) :
    e.toOption = none ↔ e.isOk = false := by
  cases e <;> simp [Except.toOption, Except.isOk, Except.toBool]

theorem applyCall_passed (r : ValidationResult) (c : VCall) :
    (applyCall r c).passed = (r.passed && !isErrCall c) := by
  cases c <;> simp [applyCall, add_info, add_warning, add_error, isErrCall]

theorem applyCalls_passed : ∀ (cs : List VCall) (r : ValidationResult),
    (applyCalls r cs).passed = (r.passed && cs.all (fun c => !isErrCall c)) := by
  intro cs
  induction cs with
  | nil => intro r; simp [applyCalls]
  | cons c cs ih =>
    intro r
    show (applyCalls (applyCall r c) cs).passed = _
    rw [ih, applyCall_passed]
    simp [List.all_cons, Bool.and_assoc]

/-! ## Claim theorems -/

/-- C9: Validation-result invariant: starting from a freshly constructed
`ValidationResult` (whose `passed` flag is `True`), after any sequence of
`add_info`, `add_warning` and `add_error` calls the `passed` flag is `True`
if and only if `add_error` was never called — warnings and info messages
never change `passed`. -/
theorem validation_passed_iff_no_error (name : L) (cs : List VCall) :
    (applyCalls (ValidationResult.init name) cs).passed = true ↔
      ∀ c ∈ cs, isErrCall c = false := by
  rw [applyCalls_passed]
  simp [ValidationResult.init]

/-- C9 witness: a run that accumulated one warning and one info message
still counts as passed. -/
theorem validation_passed_witness :
    (applyCalls (ValidationResult.init (chars "check"))
      [VCall.cwarn (chars "w"), VCall.cinfo (chars "i")]).passed = true :=
  (validation_passed_iff_no_error (chars "check") _).mpr (by decide)

/-- C10: Fuzzy suggestions are drawn only from real fields: whenever
`find_similar_field` returns `some f`, the suggestion `f` is an element of
the given `available_fields` list. -/
theorem find_similar_field_mem (target : L) (available_fields : List L) (f : L)
    (h : find_similar_field target available_fields = some f) :
    f ∈ available_fields := by
  unfold find_similar_field at h
  dsimp only at h
  split at h
  · next h1 => exact List.mem_of_find?_eq_some (h1.trans h)
  · split at h
    · next h2 => exact List.mem_of_find?_eq_some (h2.trans h)
    · obtain ⟨pa, _, hpa⟩ := List.exists_of_findSome?_eq_some h
      split at hpa
      · obtain ⟨alt, _, halt⟩ := List.exists_of_findSome?_eq_some hpa
        exact List.mem_of_find?_eq_some halt
      · exact absurd hpa (by simp)

/-- C10 witness: the case-insensitive exact match returns the real field. -/
theorem find_similar_field_witness :
    chars "TOTAL" ∈ [chars "TOTAL"] :=
  find_similar_field_mem (chars "Total") [chars "TOTAL"] (chars "TOTAL") (by decide)

/-- C8: `_insert_cte_into_view` is pure insertion: for every existing view
SQL, CTE text, section and year, the original string is a subsequence of the
result, and the result arises from the original by (at most) two contiguous
insertions — no character is deleted or reordered. -/
theorem insertCte_pure_insertion (sec year cte s : L) :
    s.Sublist (insertCteIntoView sec year cte s) ∧
      ∃ p1 t1 p2 t2,
        insertCteIntoView sec year cte s = insertAt p2 t2 (insertAt p1 t1 s) := by
  unfold insertCteIntoView
  cases h1 : cteInsertPos sec s with
  | none =>
    simp only
    cases h2 : armInsertPos s with
    | none =>
      exact ⟨List.Sublist.refl s, 0, [], 0, [], by rw [insertAt_nil, insertAt_nil]⟩
    | some q =>
      refine ⟨sublist_insertAt _ _ _, 0, [], q, unionAddition sec year, ?_⟩
      rw [insertAt_nil]
  | some p =>
    simp only
    cases h2 : armInsertPos (insertAt p (chars ",\n" ++ cte) s) with
    | none =>
      refine ⟨sublist_insertAt _ _ _, p, chars ",\n" ++ cte, 0, [], ?_⟩
      rw [insertAt_nil]
    | some q =>
      exact ⟨(sublist_insertAt _ _ _).trans (sublist_insertAt _ _ _),
        p, chars ",\n" ++ cte, q, unionAddition sec year, rfl⟩

/-- C7 counterexample: for year `"2024"` and section table key `"a_reg"`,
`get_table_name` (used in the generated FROM clause) uppercases the section
key, producing `eavs_county_24_A_REG`, while the loader's
`create_external_tables` creates the external table under
`eavs_county_24_a_reg` — not the same name. -/
theorem table_name_case_cex :
    get_table_name (chars "2024") (chars "a_reg") = chars "eavs_county_24_A_REG" ∧
    loaderTableName (chars "2024") (chars "a_reg") = chars "eavs_county_24_a_reg" ∧
    get_table_name (chars "2024") (chars "a_reg") ≠
      loaderTableName (chars "2024") (chars "a_reg") := by
  refine ⟨by decide, by decide, by decide⟩

/-- C7 amended: the generated year block's FROM clause references, inside
dataset `eavs_<year>` fully qualified with the project identifier, the table
`eavs_county_<last two characters of the year>_<section table key
UPPERCASED>`; this equals the loader's external-table name only after
uppercasing the section key. -/
theorem source_table_naming_amended (project_id : L) (m : SectionMappings)
    (year section_code : L) :
    ∃ pre, generate_union_select project_id m year section_code =
      pre ++ (chars "\nFROM `" ++ project_id ++ chars "." ++
        get_dataset_name year ++ chars "." ++
        loaderTableName year (pyUpperRepl section_code) ++ chars "`") :=
  ⟨_, rfl⟩

/-- C3 counterexample: `generate_union_select` (line 46 of
`generate_dynamic_unions.py`) consults the integer year key first: with the
year 2024 stored under both the string key and the integer key, the lookup
returns the integer-keyed mapping even though a (different) string-keyed
mapping exists — the claimed string-key priority fails. -/
theorem year_lookup_int_priority_cex :
    List.lookup (YearKey.ystr (chars "2024")) mBothKeys.years =
      some [(chars "a", some (chars "S"))] ∧
    yearFieldsDyn mBothKeys (chars "2024") = [(chars "a", some (chars "I"))] ∧
    ([(chars "a", some (chars "I"))] : YearFields) ≠
      [(chars "a", some (chars "S"))] := by
  refine ⟨by decide, by decide, by decide⟩

/-- C3 amended: `_generate_year_cte` (`load_eavs_year.py` line 202) tries
the string form of the year first and the integer form second, while
`generate_union_select` (`generate_dynamic_unions.py` line 46) tries the
integer form first and the string form second; under either order, a
mapping stored under exactly one key form is found by both lookups — there
is no false-negative empty result. -/
theorem year_lookup_amended (m : SectionMappings) (y : L) (fs fi : YearFields) :
    (List.lookup (YearKey.ystr y) m.years = some fs →
     List.lookup (YearKey.yint (strToInt y)) m.years = some fi →
     yearFieldsEavs m y = fs ∧ yearFieldsDyn m y = fi)
    ∧ (List.lookup (YearKey.ystr y) m.years = some fs →
       List.lookup (YearKey.yint (strToInt y)) m.years = none →
       yearFieldsEavs m y = fs ∧ yearFieldsDyn m y = fs)
    ∧ (List.lookup (YearKey.ystr y) m.years = none →
       List.lookup (YearKey.yint (strToInt y)) m.years = some fi →
       yearFieldsEavs m y = fi ∧ yearFieldsDyn m y = fi) := by
  refine ⟨fun hs hi => ?_, fun hs hi => ?_, fun hs hi => ?_⟩ <;>
    unfold yearFieldsEavs yearFieldsDyn <;> rw [hs, hi] <;> exact ⟨rfl, rfl⟩

/-- C3 witness: both-keys-present instance, exercising the differing
priorities at a concrete store. -/
theorem year_lookup_witness :
    yearFieldsEavs mBothKeys (chars "2024") = [(chars "a", some (chars "S"))] ∧
    yearFieldsDyn mBothKeys (chars "2024") = [(chars "a", some (chars "I"))] :=
  (year_lookup_amended mBothKeys (chars "2024") _ _).1 (by decide) (by decide)

/-- C4 counterexample: `_generate_year_cte` treats the empty string as
falsy: with the mapping value for field `b` being the (present) empty
string — neither the `'null'` sentinel nor absent nor `None` — the rendered
item is still `NULL AS b`, so "NULL iff sentinel-or-absent" fails. -/
theorem null_fallback_cex :
    cteFieldSelect [(chars "b", some (chars ""))] (chars "b") =
      chars "NULL" ++ (cteSep ++ chars "b") ∧
    (List.lookup (chars "b") [(chars "b", some (chars ""))]).getD none = some [] ∧
    (some ([] : L) : Option L) ≠ none ∧ ([] : L) ≠ chars "null" := by
  refine ⟨by decide, by decide, by decide, by decide⟩

/-- C4 amended: provided the stored source expression is not the literal
string `"NULL"` (which would render indistinguishably), the NULL-fallback
law holds exactly for `generate_union_select`: the item is `NULL as <field>`
iff the mapping value is absent, `None`, or `'null'`.  For
`_generate_year_cte` the empty string is additionally treated as missing
(Python falsiness): the item is `NULL AS <field>` iff the value is absent,
`None`, `'null'`, or `''`. -/
theorem null_fallback_amended (ym : YearFields) (f : L) :
    ((List.lookup f ym).getD none ≠ some (chars "NULL") →
      (dynFieldSelect ym f = chars "NULL" ++ (aliasSep ++ f) ↔
        (List.lookup f ym).getD none = none ∨
        (List.lookup f ym).getD none = some (chars "null")))
    ∧ ((List.lookup f ym).getD none ≠ some (chars "NULL") →
      (cteFieldSelect ym f = chars "NULL" ++ (cteSep ++ f) ↔
        (List.lookup f ym).getD none = none ∨
        (List.lookup f ym).getD none = some (chars "null") ∨
        (List.lookup f ym).getD none = some [])) := by
  constructor
  · intro hg
    unfold dynFieldSelect
    cases ho : (List.lookup f ym).getD none with
    | none => simp
    | some v =>
      rw [ho] at hg
      dsimp only
      by_cases hv : v = chars "null"
      · rw [if_pos hv]
        exact ⟨fun _ => Or.inr (by rw [hv]), fun _ => rfl⟩
      · rw [if_neg hv]
        constructor
        · intro he
          exact absurd (congrArg some (List.append_cancel_right he)) hg
        · rintro (h | h)
          · exact Option.noConfusion h
          · exact absurd (Option.some.inj h) hv
  · intro hg
    unfold cteFieldSelect
    cases ho : (List.lookup f ym).getD none with
    | none => simp
    | some v =>
      rw [ho] at hg
      dsimp only
      by_cases hv : v ≠ [] ∧ v ≠ chars "null"
      · rw [if_pos hv]
        constructor
        · intro he
          exact absurd (congrArg some (List.append_cancel_right he)) hg
        · rintro (h | h | h)
          · exact Option.noConfusion h
          · exact absurd (Option.some.inj h) hv.2
          · exact absurd (Option.some.inj h) hv.1
      · rw [if_neg hv]
        constructor
        · intro _
          rcases Decidable.not_and_iff_or_not.mp hv with h | h
          · rw [Decidable.not_not] at h
            exact Or.inr (Or.inr (congrArg some h))
          · rw [Decidable.not_not] at h
            exact Or.inr (Or.inl (congrArg some h))
        · intro _
          rfl

/-- C4 witness: a `'null'`-sentinel value renders as literal NULL in both
generators, and a real source expression does not. -/
theorem null_fallback_witness :
    dynFieldSelect [(chars "a", some (chars "null"))] (chars "a") =
      chars "NULL" ++ (aliasSep ++ chars "a") ∧
    ¬ cteFieldSelect [(chars "a", some (chars "col_a"))] (chars "a") =
      chars "NULL" ++ (cteSep ++ chars "a") :=
  ⟨((null_fallback_amended [(chars "a", some (chars "null"))] (chars "a")).1
      (by decide)).mpr (Or.inr (by decide)),
   fun h =>
    (by decide : ¬((List.lookup (chars "a") [(chars "a", some (chars "col_a"))]).getD none = none ∨
        (List.lookup (chars "a") [(chars "a", some (chars "col_a"))]).getD none = some (chars "null") ∨
        (List.lookup (chars "a") [(chars "a", some (chars "col_a"))]).getD none = some []))
      (((null_fallback_amended [(chars "a", some (chars "col_a"))] (chars "a")).2
        (by decide)).mp h)⟩

/-- C5: Column-order invariant: for any mapping store and any two years, the
`selects` lists built by `generate_union_select` have the same ordered list
of output column aliases — the fixed base projection first, then the
non-base standard fields in declared order (base-named standard fields are
skipped, never emitted twice). -/
theorem column_order_invariant (m : SectionMappings) (y1 y2 : L) :
    (selectsFor m y1).map aliasOf = (selectsFor m y2).map aliasOf := by
  unfold selectsFor
  rw [List.map_append, List.map_append]
  congr 1
  · unfold baseSelects
    simp only [List.map_cons, List.map_nil]
    rw [show yearLit y1 = (chars "'" ++ y1 ++ chars "'") ++
          (aliasSep ++ chars "election_year") from rfl,
        show yearLit y2 = (chars "'" ++ y2 ++ chars "'") ++
          (aliasSep ++ chars "election_year") from rfl,
        aliasOf_shift, aliasOf_shift]
  · exact mappedSelects_map_aliasOf _ _ m.standard_fields

/-- C6: Partial generation tolerance: the year loop of
`generate_full_union_view` keeps exactly the blocks of the years whose
generation succeeded (in order), the operation fails (raises) precisely when
the mapping key yields no years or no year produces a block, and a
successful result is built from a nonempty block list — an empty view is
never returned. -/
theorem partial_generation_tolerance (gen : L → Except L L)
    (m : SectionMappings) (mk pid ad vn : L) :
    gfuvBlocks gen (get_all_years m) =
      (get_all_years m).filterMap (fun y => (gen y).toOption)
    ∧ ((generate_full_union_view gen m mk pid ad vn).isOk = false ↔
        (get_all_years m = [] ∨ ∀ y ∈ get_all_years m, (gen y).isOk = false))
    ∧ (∀ out, generate_full_union_view gen m mk pid ad vn = .ok out →
        gfuvBlocks gen (get_all_years m) ≠ []) := by
  refine ⟨gfuvBlocks_eq_filterMap gen _, ?_, ?_⟩
  · unfold generate_full_union_view
    by_cases hy : (get_all_years m).isEmpty = true
    · rw [if_pos hy]
      simp [Except.isOk, Except.toBool, List.isEmpty_iff.mp hy]
    · rw [if_neg hy]
      have hy' : ¬ get_all_years m = [] := fun h => hy (List.isEmpty_iff.mpr h)
      by_cases hb : (gfuvBlocks gen (get_all_years m)).isEmpty = true
      · rw [if_pos hb]
        simp only [Except.isOk, Except.toBool, true_iff]
        refine Or.inr ?_
        have := List.isEmpty_iff.mp hb
        rw [gfuvBlocks_eq_filterMap] at this
        intro y hy2
        have hnone := List.filterMap_eq_nil_iff.mp this y hy2
        exact (except_toOption_none_iff (gen y)).mp hnone
      · rw [if_neg hb]
        simp only [Except.isOk, Except.toBool, Bool.true_eq_false, false_iff]
        rintro (h | h)
        · exact hy' h
        · apply hb
          apply List.isEmpty_iff.mpr
          rw [gfuvBlocks_eq_filterMap]
          apply List.filterMap_eq_nil_iff.mpr
          intro y hy2
          exact (except_toOption_none_iff (gen y)).mpr (h y hy2)
  · intro out hout
    unfold generate_full_union_view at hout
    by_cases hy : (get_all_years m).isEmpty = true
    · rw [if_pos hy] at hout
      exact Except.noConfusion hout
    · rw [if_neg hy] at hout
      by_cases hb : (gfuvBlocks gen (get_all_years m)).isEmpty = true
      · rw [if_pos hb] at hout
        exact Except.noConfusion hout
      · rw [if_neg hb] at hout
        exact fun h => hb (List.isEmpty_iff.mpr h)

/-- C6 witness: an empty mapping store makes full generation fail loudly. -/
theorem partial_generation_witness :
    (generate_full_union_view (fun _ => .ok (chars "B")) mNoYears
      (chars "k") (chars "p") (chars "d") (chars "v")).isOk = false :=
  (partial_generation_tolerance (fun _ => .ok (chars "B")) mNoYears
    (chars "k") (chars "p") (chars "d") (chars "v")).2.1.mpr (Or.inl (by decide))

/-- C2: Patch is idempotent.  For the per-year loader's view patcher: when
the `<section>_<year>` marker is already present the view text is returned
unchanged (the "already present" branch), and applying the patch twice
always yields the same text as applying it once.  For the denominators
patcher: when its 2024 marker (`'2024'` or `acs_2024`) is already present
the view text is unchanged, and the patch is likewise idempotent — no
duplicate year blocks and no duplicate union arms. -/
theorem patch_idempotent (m : SectionMappings) (sec year e : L) :
    (pyIn (markerReg sec year) e = true → patchReg m sec year e = e)
    ∧ patchReg m sec year (patchReg m sec year e) = patchReg m sec year e
    ∧ ((pyIn (chars "'2024'") e = true ∨ pyIn (chars "acs_2024") e = true) →
        acsPatch e = e)
    ∧ acsPatch (acsPatch e) = acsPatch e :=
  ⟨patchReg_marker_unchanged m sec year e,
   patchReg_idem m sec year e,
   acsPatch_marker_unchanged e,
   acsPatch_idem e⟩

/-- C2 witness: a view text already containing the `a_reg_2024` marker is
returned unchanged by the loader's patcher, and one containing `acs_2024`
is returned unchanged by the denominators patcher. -/
theorem patch_idempotent_witness :
    patchReg mOneYear (chars "a_reg") (chars "2024")
      (chars "x a_reg_2024 y") = chars "x a_reg_2024 y" ∧
    acsPatch (chars "x acs_2024 y") = chars "x acs_2024 y" :=
  ⟨(patch_idempotent mOneYear (chars "a_reg") (chars "2024")
      (chars "x a_reg_2024 y")).1 (by decide),
   (patch_idempotent mOneYear (chars "a_reg") (chars "2024")
      (chars "x acs_2024 y")).2.2.1 (Or.inr (by decide))⟩

/-- C1 counterexample: on a malformed input where the CTE insertion-point
patterns fail but the union-arm pattern matches, `_insert_cte_into_view`
returns a changed string containing the new union arm but not the new CTE
block — partial corruption with no failure signal (the caller
`update_union_views` pushes the result to the warehouse unconditionally). -/
theorem patch_corruption_cex :
    insertCteIntoView (chars "a_reg") (chars "2024") cexCte cexSql ≠ cexSql ∧
    pyIn (chars "UNION ALL\nSELECT * FROM a_reg_2024")
      (insertCteIntoView (chars "a_reg") (chars "2024") cexCte cexSql) = true ∧
    pyIn cexCte
      (insertCteIntoView (chars "a_reg") (chars "2024") cexCte cexSql) = false := by
  refine ⟨by decide, by decide, by decide⟩

/-- C1 amended: the denominators patcher is non-destructive — it either
leaves the view text unchanged (already-present, or pattern failure with the
attempt saved to a `*_MANUAL.sql` / `*_current.sql` side file) or inserts
the new CTE and the new union arm together; `_insert_cte_into_view`,
however, performs its two insertions independently and only returns the
input unchanged when both pattern searches fail. -/
theorem patch_failure_nondestructive_amended :
    (∀ s, acsPatch s = s ∨
      ∃ p1 p2, acsPatch s =
        insertAt p2 acsUnionStmt
          (insertAt p1 (chars "\n" ++ acsCteText ++ chars ",") s))
    ∧ (∀ sec year cte s, cteInsertPos sec s = none → armInsertPos s = none →
        insertCteIntoView sec year cte s = s) := by
  constructor
  · intro s
    unfold acsPatch
    cases hm : (pyIn (chars "'2024'") s || pyIn (chars "acs_2024") s) with
    | true => exact Or.inl (by simp [hm])
    | false =>
      simp only [hm, Bool.false_eq_true, if_false]
      cases h1 : searchAcsCteEnd s with
      | none => exact Or.inl rfl
      | some p1 =>
        simp only
        cases h2 : searchSelEnd (insertAt p1 (chars "\n" ++ acsCteText ++ chars ",") s) with
        | none => exact Or.inl rfl
        | some p2 => exact Or.inr ⟨p1, p2, rfl⟩
  · intro sec year cte s h1 h2
    unfold insertCteIntoView
    simp only [h1, h2]

/-- C1 witness: on an input matching no pattern at all, the loader's
CTE-insertion step is a clean no-op. -/
theorem patch_failure_nondestructive_witness :
    cteInsertPos (chars "a_reg") (chars "no patterns here") = none ∧
    armInsertPos (chars "no patterns here") = none ∧
    insertCteIntoView (chars "a_reg") (chars "2024") (chars "c")
      (chars "no patterns here") = chars "no patterns here" :=
  ⟨by decide, by decide,
   patch_failure_nondestructive_amended.2 (chars "a_reg") (chars "2024")
     (chars "c") (chars "no patterns here") (by decide) (by decide)⟩
